import Mathlib

/-!
Verification of `gaspy/tasks/atoms_generators.py` against its specification.

The file shallowly embeds the pipeline layer of the repository: the document
schema, the gas/bulk/slab/adsorption-site generator tasks, their dependency
declarations, and (modelled from the spec, since the `gaspy.tasks.core` and
scheduler code is not part of the source tree here) the output store and the
resolve-and-run sequence.  Geometry and chemistry collaborators
(`orient_atoms_upwards`, `constrain_slab`, `is_structure_invertible`,
`flip_atoms`, `tile_atoms`, `find_adsorption_sites`,
`make_slabs_from_bulk_atoms`, `AseAtomsAdaptor.get_atoms`) are opaque to the
source file and are therefore universally quantified function parameters.
Numeric coordinates are modelled as integers: the source only moves them
around, translates them, and compares records for equality.
-/

namespace Gaspy

/-- A 3-component cartesian vector (positions, cell edges, sites). -/
abbrev Vec3 := Int × Int × Int

/-- Componentwise translation of a vector, as `ase.Atoms.translate` and
`positions +=` do. -/
def vadd (v w : Vec3) : Vec3 := (v.1 + w.1, v.2.1 + w.2.1, v.2.2 + w.2.2)

/-- One atom of an `ase.Atoms` object: chemical symbol, cartesian position and
integer tag. -/
structure Atom where
  symbol : String
  position : Vec3
  tag : Int
deriving DecidableEq, Repr

/-- An `ase.Atoms` object: the atom list, the (cubic-diagonal) cell and the
periodic-boundary flags. -/
structure Atoms where
  atoms : List Atom
  cell : Vec3
  pbc : Bool × Bool × Bool
deriving DecidableEq, Repr

/-- A `pymatgen.Structure` slab as the source file sees it: the only field the
source reads is `shift`; the rest of the structure is opaque payload, kept as
an identifier so that distinct structures stay distinct. -/
structure Struct where
  shift : Int
  payload : Nat
deriving DecidableEq, Repr

/-- A Mongo-style document.  `make_doc_from_atoms` stores the atoms object;
the task code then attaches the extra fields (`shift`, `top`, `slab_repeat`,
`adsorption_site`) by plain key assignment, so they are optional fields here. -/
structure Doc where
  atoms : Atoms
  shift : Option Int := none
  top : Option Bool := none
  slab_repeat : Option (Int × Int) := none
  adsorption_site : Option Vec3 := none
deriving DecidableEq, Repr

/-- Modelled from the spec: the Document Codec collaborator
(`gaspy.mongo.make_doc_from_atoms`, not under the source tree).  The spec
requires the codec round trip to be lossless for positions, cell, periodicity,
tags and constraints, so the document simply carries the atoms object. -/
def make_doc_from_atoms (a : Atoms) : Doc := { atoms := a }

/-- Modelled from the spec: the inverse direction of the Document Codec
(`gaspy.mongo.make_atoms_from_doc`); lossless round trip per the spec. -/
def make_atoms_from_doc (d : Doc) : Atoms := d.atoms

/-! ### GenerateGas -/

/-- The body of `GenerateGas.run`: look the gas up in ASE's `g2` collection (a lookup that
fails on unknown names, hence `Option`), translate every position by `+10`,
set a `20 × 20 × 20` cell and periodic boundaries in all three directions,
and emit the codec document. -/
def GenerateGas_run (g2 : String → Option Atoms) (gas_name : String) : Option Doc :=
  (g2 gas_name).map (fun a =>
    make_doc_from_atoms
      { atoms := a.atoms.map (fun a0 => { a0 with position := vadd a0.position (10, 10, 10) })
        cell := (20, 20, 20)
        pbc := (true, true, true) })

/-! ### Slab document generation -/

/-- The geometry collaborators consumed by slab generation, opaque to the
source file. -/
structure SlabCollab where
  get_atoms : Struct → Atoms
  orient_atoms_upwards : Atoms → Atoms
  constrain_slab : Atoms → Atoms
  is_structure_invertible : Struct → Bool
  flip_atoms : Atoms → Atoms

/-- The top-oriented document built for every structure: convert, orient
upwards, constrain, encode, then attach `shift` and `top = True`. -/
def slab_doc_top (c : SlabCollab) (s : Struct) : Doc :=
  { make_doc_from_atoms (c.constrain_slab (c.orient_atoms_upwards (c.get_atoms s))) with
      shift := some s.shift, top := some true }

/-- The extra document built for an invertible structure: flip the oriented
atoms, constrain, encode, then attach `shift` and `top = False`. -/
def slab_doc_flipped (c : SlabCollab) (s : Struct) : Doc :=
  { make_doc_from_atoms (c.constrain_slab (c.flip_atoms (c.orient_atoms_upwards (c.get_atoms s)))) with
      shift := some s.shift, top := some false }

/-- The documents one loop iteration of `_make_slab_docs_from_structs`
appends for one structure. -/
def slab_docs_for (c : SlabCollab) (s : Struct) : List Doc :=
  if c.is_structure_invertible s then [slab_doc_top c s, slab_doc_flipped c s]
  else [slab_doc_top c s]

/-- The loop of `_make_slab_docs_from_structs`: for each structure append the top
document, and when the invertibility check succeeds also append the flipped
document, preserving the input order. -/
def _make_slab_docs_from_structs (c : SlabCollab) : List Struct → List Doc
  | [] => []
  | s :: rest =>
      let atoms := c.orient_atoms_upwards (c.get_atoms s)
      let doc : Doc :=
        { make_doc_from_atoms (c.constrain_slab atoms) with
            shift := some s.shift, top := some true }
      if c.is_structure_invertible s then
        doc ::
          { make_doc_from_atoms (c.constrain_slab (c.flip_atoms atoms)) with
              shift := some s.shift, top := some false } ::
          _make_slab_docs_from_structs c rest
      else doc :: _make_slab_docs_from_structs c rest

/-! ### Adsorption-site generation -/

/-- The collaborators consumed by adsorption-site generation: tiling a slab to
a minimum width (returning the tiled atoms and the x/y repeat factors) and
discovering adsorption sites on the tiled slab. -/
structure SiteCollab where
  tile_atoms : Atoms → Int → Int → Atoms × (Int × Int)
  find_adsorption_sites : Atoms → List Vec3

/-- The adsorbate `ase.Atoms('U')`: a single uranium atom at the origin, untagged, then
`translate(site)`. -/
def uranium_marker (site : Vec3) : Atom :=
  { symbol := "U", position := vadd (0, 0, 0) site, tag := 0 }

/-- The assignment `adslab_atoms[-1].tag = 1`: set the tag of the final atom of the list. -/
def set_last_tag (t : Int) : List Atom → List Atom
  | [] => []
  | [a] => [{ a with tag := t }]
  | a :: b :: rest => a :: set_last_tag t (b :: rest)

/-- One document of `GenerateAdsorptionSites.run`: copy the tiled slab, append
the translated uranium marker, tag the appended atom with `1`, encode, then
attach `slab_repeat` and `adsorption_site`. -/
def site_doc (tiled : Atoms) (rep : Int × Int) (site : Vec3) : Doc :=
  { make_doc_from_atoms
      { tiled with atoms := set_last_tag 1 (tiled.atoms ++ [uranium_marker site]) } with
    slab_repeat := some rep, adsorption_site := some site }

/-- The inner loop of `GenerateAdsorptionSites.run` for one slab document:
decode the slab, tile it, find the sites, and emit one document per site. -/
def site_docs_for_slab (c : SiteCollab) (min_xy : Int) (slab_doc : Doc) : List Doc :=
  let slab_atoms := make_atoms_from_doc slab_doc
  let tiled := c.tile_atoms slab_atoms min_xy min_xy
  (c.find_adsorption_sites tiled.1).map (site_doc tiled.1 tiled.2)

/-- The body of `GenerateAdsorptionSites.run` on the already-loaded list of slab
documents: the per-slab loop bodies, concatenated in slab order. -/
def GenerateAdsorptionSites_run (c : SiteCollab) (min_xy : Int) (slab_docs : List Doc) : List Doc :=
  slab_docs.flatMap (site_docs_for_slab c min_xy)

/-! ### Task identity and output store

Modelled from the spec: the task-identity derivation (luigi's `task_id`),
the output-store targets (`gaspy.tasks.core.make_task_output_object` /
`save_task_output`) and the resolver are not under the source tree; the
definitions below follow sections 3, 4.2 and 4.3 of the specification. -/

/-- A value inside a settings mapping (`slab_generator_settings`,
`get_slab_settings`): a primitive, as the defaults module supplies them. -/
inductive SettingValue where
  | str : String → SettingValue
  | int : Int → SettingValue
  | ints : List Int → SettingValue
  | flag : Bool → SettingValue
deriving DecidableEq, Repr

/-- A canonicalizable task-parameter value: strings, integers, integer tuples
and frozen settings mappings, covering the parameter shapes the task library
declares. -/
inductive ParamValue where
  | str : String → ParamValue
  | int : Int → ParamValue
  | tuple : List Int → ParamValue
  | dict : List (String × SettingValue) → ParamValue
deriving DecidableEq, Repr

/-- A bag of named task parameters. -/
abbrev Params := List (String × ParamValue)

/-- Lexicographic comparison of character lists by code point. -/
def charListLE : List Char → List Char → Bool
  | [], _ => true
  | _ :: _, [] => false
  | a :: as, b :: bs =>
      if a.toNat < b.toNat then true
      else if b.toNat < a.toNat then false
      else charListLE as bs

/-- Lexicographic comparison of parameter names. -/
def keyLE (a b : String) : Bool := charListLE a.data b.data

/-- Modelled from the spec: canonicalization of a parameter bag — the
name→value pairs sorted by parameter name (insertion sort, stable). -/
def canonicalize (ps : Params) : Params :=
  ps.foldr (fun p acc => acc.insertP (fun q => keyLE p.1 q.1) p) []

/-- Modelled from the spec: a Task Identity is the task type name together
with the canonicalized parameter bag. -/
structure TaskIdentity where
  task_type : String
  params : Params
deriving DecidableEq, Repr

/-- Modelled from the spec: derive the identity of a task from its type name
and raw parameter bag — a pure function of its two arguments. -/
def task_identity (ty : String) (ps : Params) : TaskIdentity :=
  ⟨ty, canonicalize ps⟩

/-- Modelled from the spec: the Output Store location for an identity — the
per-type pickle directory plus the identity itself, as in
`GASDB_PATH/pickles/<type>/<task_id>.pkl`. -/
structure OutputLocation where
  directory : String
  task_id : TaskIdentity
deriving DecidableEq, Repr

/-- Modelled from the spec: `location_for(identity)` — deterministic mapping
from identity to storage location. -/
def location_for (i : TaskIdentity) : OutputLocation :=
  ⟨"pickles/" ++ i.task_type, i⟩

/-- A persisted task output: either one document or an ordered list of them. -/
inductive Payload where
  | one : Doc → Payload
  | many : List Doc → Payload
deriving DecidableEq, Repr

/-- Modelled from the spec: the Output Store state — committed records, plus
staging artifacts that an interrupted write may orphan. -/
structure Store where
  committed : List (TaskIdentity × Payload)
  staging : List (TaskIdentity × Payload)
deriving DecidableEq, Repr

namespace Store

/-- Modelled from the spec: `exists(identity)` — true iff a committed record
for the identity is present (staging artifacts are invisible). -/
def recordExists (st : Store) (i : TaskIdentity) : Bool :=
  st.committed.any (fun r => r.1 = i)

/-- Modelled from the spec: a `write` interrupted before its atomic publish:
the payload reached only the staging area. -/
def write_interrupted (st : Store) (i : TaskIdentity) (p : Payload) : Store :=
  { st with staging := (i, p) :: st.staging }

/-- Modelled from the spec: a completed `write(identity, payload)` — stage,
then atomically publish to the committed location. -/
def write (st : Store) (i : TaskIdentity) (p : Payload) : Store :=
  { st with committed := (i, p) :: st.committed }

/-- Modelled from the spec: `read(identity)` — the committed payload, or
`none` (`NotFoundError`) when no committed record exists. -/
def read (st : Store) (i : TaskIdentity) : Option Payload :=
  (st.committed.find? (fun r => r.1 = i)).map (fun r => r.2)

end Store

/-! ### Concrete task parameter bags and dependency declarations -/

/-- A frozen settings mapping, as `luigi.DictParameter` holds it. -/
abbrev Settings := List (String × SettingValue)

/-- The parameters of `GenerateSlabs`. -/
structure GenerateSlabsParams where
  mpid : String
  miller_indices : Int × Int × Int
  slab_generator_settings : Settings
  get_slab_settings : Settings
deriving DecidableEq, Repr

/-- The parameters of `GenerateAdsorptionSites`: those of `GenerateSlabs`
plus the minimum tiling width. -/
structure GenerateAdsorptionSitesParams where
  mpid : String
  miller_indices : Int × Int × Int
  slab_generator_settings : Settings
  get_slab_settings : Settings
  min_xy : Int
deriving DecidableEq, Repr

/-- A reference to an upstream task instance, as a `requires` method returns
it: the task kind together with the parameter values it was constructed
with. -/
inductive TaskRef where
  | findBulk (mpid : String)
  | generateSlabs (p : GenerateSlabsParams)
deriving DecidableEq, Repr

/-- The method `GenerateSlabs.requires`: a single `FindBulk` task for the same mpid. -/
def GenerateSlabs_requires (p : GenerateSlabsParams) : List TaskRef :=
  [TaskRef.findBulk p.mpid]

/-- The method `GenerateAdsorptionSites.requires`: a single `GenerateSlabs` task built
with the same mpid, miller indices and both settings mappings. -/
def GenerateAdsorptionSites_requires (p : GenerateAdsorptionSitesParams) : List TaskRef :=
  [TaskRef.generateSlabs
    ⟨p.mpid, p.miller_indices, p.slab_generator_settings, p.get_slab_settings⟩]

/-- The parameter bag of a referenced task, for identity derivation. -/
def TaskRef.params : TaskRef → Params
  | .findBulk mpid => [("mpid", .str mpid)]
  | .generateSlabs p =>
      [("mpid", .str p.mpid),
       ("miller_indices", .tuple [p.miller_indices.1, p.miller_indices.2.1, p.miller_indices.2.2]),
       ("slab_generator_settings", .dict p.slab_generator_settings),
       ("get_slab_settings", .dict p.get_slab_settings)]

/-- The type name of a referenced task. -/
def TaskRef.typeName : TaskRef → String
  | .findBulk _ => "FindBulk"
  | .generateSlabs _ => "GenerateSlabs"

/-- The identity of a referenced task. -/
def TaskRef.identity (r : TaskRef) : TaskIdentity :=
  task_identity r.typeName r.params

/-! ### Task bodies that read their dependency's persisted output -/

/-- The body of `GenerateBulk.run`: fetch the structure for the mpid from the external
database (which may fail), convert it to atoms, encode it, and commit it to
this task's output location.  On a failed lookup the error propagates and the
store is left untouched. -/
def GenerateBulk_run (get_atoms : Struct → Atoms)
    (fetch : String → Except String Struct)
    (mpid : String) (st : Store) : Except String Store :=
  match fetch mpid with
  | .error e => .error e
  | .ok structure0 =>
      .ok (st.write (task_identity "GenerateBulk" [("mpid", .str mpid)])
            (.one (make_doc_from_atoms (get_atoms structure0))))

/-- The body of `GenerateSlabs.run`: load the bulk document from the dependency's output
location in the store, decode it, enumerate slab structures through the
collaborator, and produce the slab documents.  `none` models the read of a
missing dependency record. -/
def GenerateSlabs_run (c : SlabCollab)
    (make_slabs_from_bulk_atoms : Atoms → (Int × Int × Int) → Settings → Settings → List Struct)
    (p : GenerateSlabsParams) (st : Store) : Option (List Doc) :=
  match st.read (TaskRef.findBulk p.mpid).identity with
  | some (.one bulk_doc) =>
      let bulk_atoms := make_atoms_from_doc bulk_doc
      some (_make_slab_docs_from_structs c
        (make_slabs_from_bulk_atoms bulk_atoms p.miller_indices
          p.slab_generator_settings p.get_slab_settings))
  | _ => none

/-- The body of `GenerateAdsorptionSites.run`: load the slab documents from the
dependency's output location in the store and fan out per slab × site. -/
def GenerateAdsorptionSites_run_from_store (c : SiteCollab)
    (p : GenerateAdsorptionSitesParams) (st : Store) : Option (List Doc) :=
  match st.read (TaskRef.generateSlabs
      ⟨p.mpid, p.miller_indices, p.slab_generator_settings, p.get_slab_settings⟩).identity with
  | some (.many slab_docs) => some (GenerateAdsorptionSites_run c p.min_xy slab_docs)
  | _ => none

/-! ### The resolve-and-run sequence

Modelled from the spec (section 4.3): the Resolver visits the nodes of the
dependency graph leaves-first; a node whose Output Record exists is skipped,
otherwise its computation runs on the store (reading its dependencies'
persisted outputs) and the result is committed.  The second component counts
how many times a computation was invoked. -/

/-- One node of the resolver's leaves-first schedule: the task's identity and
its computation, which reads dependency outputs from the store. -/
structure Node where
  id : TaskIdentity
  compute : Store → Payload

/-- Modelled from the spec: the resolver's walk over a leaves-first schedule.
Skips any node whose committed Output Record exists; otherwise invokes the
node's computation and commits its payload.  Returns the final store and the
number of computations invoked. -/
def run_schedule (st : Store) : List Node → Store × Nat
  | [] => (st, 0)
  | node :: rest =>
      if st.recordExists node.id then run_schedule st rest
      else
        let next := run_schedule (st.write node.id (node.compute st)) rest
        (next.1, next.2 + 1)

/-! ### Shared lemmas -/

/-- The slab loop is the per-structure fan-out concatenated in input order. -/
theorem make_slab_docs_eq_flatMap (c : SlabCollab) :
    ∀ structs : List Struct,
      _make_slab_docs_from_structs c structs = structs.flatMap (slab_docs_for c)
  | [] => rfl
  | s :: rest => by
      simp only [_make_slab_docs_from_structs, List.flatMap_cons,
        slab_docs_for, slab_doc_top, slab_doc_flipped]
      cases h : c.is_structure_invertible s <;>
        simp [h, make_slab_docs_eq_flatMap c rest]

/-- A small concrete geometry collaborator used to evaluate the theorems on
closed inputs: structures with even payload count as invertible, flipping
negates the z coordinate. -/
def sampleSlabCollab : SlabCollab where
  get_atoms := fun s => ⟨[⟨"Cu", (s.shift, Int.ofNat s.payload, 3), 0⟩], (5, 5, 5), (true, true, false)⟩
  orient_atoms_upwards := fun a => a
  constrain_slab := fun a => { a with atoms := a.atoms.map (fun x => { x with tag := 0 }) }
  is_structure_invertible := fun s => s.payload % 2 == 0
  flip_atoms := fun a =>
    { a with atoms := a.atoms.map (fun x =>
        { x with position := (x.position.1, x.position.2.1, -x.position.2.2) }) }

/-- C1: for each structure passing the invertibility check the loop emits
exactly two documents — same `shift`, `top = True` for the upright one and
`top = False` for the flipped one, whose atoms differ by the flip — and for
each structure failing the check exactly one document with `top = True`. -/
theorem slab_fanout_by_invertibility (c : SlabCollab) (structs : List Struct) :
    _make_slab_docs_from_structs c structs = structs.flatMap (slab_docs_for c)
    ∧ ∀ s : Struct,
      (c.is_structure_invertible s = true →
        slab_docs_for c s = [slab_doc_top c s, slab_doc_flipped c s]
        ∧ (slab_docs_for c s).length = 2
        ∧ (slab_doc_top c s).shift = some s.shift
        ∧ (slab_doc_flipped c s).shift = some s.shift
        ∧ (slab_doc_top c s).top = some true
        ∧ (slab_doc_flipped c s).top = some false
        ∧ (slab_doc_top c s).atoms
            = c.constrain_slab (c.orient_atoms_upwards (c.get_atoms s))
        ∧ (slab_doc_flipped c s).atoms
            = c.constrain_slab (c.flip_atoms (c.orient_atoms_upwards (c.get_atoms s))))
      ∧ (c.is_structure_invertible s = false →
        slab_docs_for c s = [slab_doc_top c s]
        ∧ (slab_docs_for c s).length = 1
        ∧ (slab_doc_top c s).top = some true) := by
  refine ⟨make_slab_docs_eq_flatMap c structs, fun s => ⟨fun h => ?_, fun h => ?_⟩⟩
  · simp [slab_docs_for, h, slab_doc_top, slab_doc_flipped, make_doc_from_atoms]
  · simp [slab_docs_for, h, slab_doc_top, make_doc_from_atoms]

/-- C1 witness: evaluating the fan-out characterization on a concrete
invertible structure. -/
theorem slab_fanout_by_invertibility_witness :
    sampleSlabCollab.is_structure_invertible ⟨2, 0⟩ = true
    ∧ slab_docs_for sampleSlabCollab ⟨2, 0⟩
        = [slab_doc_top sampleSlabCollab ⟨2, 0⟩, slab_doc_flipped sampleSlabCollab ⟨2, 0⟩]
    ∧ (slab_docs_for sampleSlabCollab ⟨2, 0⟩).length = 2
    ∧ (slab_doc_top sampleSlabCollab ⟨2, 0⟩).shift = some 2
    ∧ (slab_doc_flipped sampleSlabCollab ⟨2, 0⟩).shift = some 2
    ∧ (slab_doc_top sampleSlabCollab ⟨2, 0⟩).top = some true
    ∧ (slab_doc_flipped sampleSlabCollab ⟨2, 0⟩).top = some false := by
  have h := ((slab_fanout_by_invertibility sampleSlabCollab [⟨2, 0⟩]).2 ⟨2, 0⟩).1 (by rfl)
  exact ⟨by rfl, h.1, h.2.1, h.2.2.1, h.2.2.2.1, h.2.2.2.2.1, h.2.2.2.2.2.1⟩

/-- C8: the output documents appear in input-structure order (the loop output
is the concatenation of the per-structure blocks), and for an invertible
structure the `top = True` document immediately precedes its flipped
`top = False` counterpart. -/
theorem slab_docs_preserve_order (c : SlabCollab) (structs : List Struct) :
    _make_slab_docs_from_structs c structs = structs.flatMap (slab_docs_for c)
    ∧ ∀ s : Struct, c.is_structure_invertible s = true →
        slab_docs_for c s = [slab_doc_top c s, slab_doc_flipped c s]
        ∧ (slab_doc_top c s).top = some true
        ∧ (slab_doc_flipped c s).top = some false := by
  refine ⟨make_slab_docs_eq_flatMap c structs, fun s h => ?_⟩
  simp [slab_docs_for, h, slab_doc_top, slab_doc_flipped, make_doc_from_atoms]

/-- C8 witness: the grouped top-then-flipped order on a concrete two-structure
input, the first invertible and the second not. -/
theorem slab_docs_preserve_order_witness :
    sampleSlabCollab.is_structure_invertible ⟨2, 0⟩ = true
    ∧ _make_slab_docs_from_structs sampleSlabCollab [⟨2, 0⟩, ⟨3, 1⟩]
        = [slab_doc_top sampleSlabCollab ⟨2, 0⟩, slab_doc_flipped sampleSlabCollab ⟨2, 0⟩]
          ++ slab_docs_for sampleSlabCollab ⟨3, 1⟩ := by
  have h := slab_docs_preserve_order sampleSlabCollab [⟨2, 0⟩, ⟨3, 1⟩]
  have h2 := (h.2 ⟨2, 0⟩ (by rfl)).1
  refine ⟨by rfl, ?_⟩
  rw [h.1]
  simp [h2]

/-- C10: for a gas name the `g2` collection resolves, `GenerateGas` emits a
single document whose atoms are the molecule translated by `+10` in every
cartesian coordinate, with a `20 × 20 × 20` cell and fully periodic boundary
conditions. -/
theorem gas_doc_translated (g2 : String → Option Atoms) (gas_name : String)
    (a : Atoms) (h : g2 gas_name = some a) :
    ∃ d : Doc,
      GenerateGas_run g2 gas_name = some d
      ∧ d.atoms.atoms
          = a.atoms.map (fun a0 => { a0 with position := vadd a0.position (10, 10, 10) })
      ∧ d.atoms.cell = (20, 20, 20)
      ∧ d.atoms.pbc = (true, true, true)
      ∧ d.shift = none ∧ d.top = none ∧ d.slab_repeat = none ∧ d.adsorption_site = none := by
  simp only [GenerateGas_run, h, Option.map_some']
  exact ⟨_, rfl, rfl, rfl, rfl, rfl, rfl, rfl, rfl⟩

/-- A two-atom CO molecule used as a closed input. -/
def sampleGas : Atoms :=
  ⟨[⟨"C", (0, 0, 0), 0⟩, ⟨"O", (0, 0, 1), 0⟩], (0, 0, 0), (false, false, false)⟩

/-- A one-entry `g2` collection resolving only the name `CO`. -/
def sampleG2 : String → Option Atoms :=
  fun n => if n = "CO" then some sampleGas else none

/-- C10 witness: evaluating the gas document on the one-entry collection. -/
theorem gas_doc_translated_witness :
    sampleG2 "CO" = some sampleGas
    ∧ ∃ d : Doc,
      GenerateGas_run sampleG2 "CO" = some d
      ∧ d.atoms.atoms
          = sampleGas.atoms.map (fun a0 => { a0 with position := vadd a0.position (10, 10, 10) })
      ∧ d.atoms.cell = (20, 20, 20)
      ∧ d.atoms.pbc = (true, true, true)
      ∧ d.shift = none ∧ d.top = none ∧ d.slab_repeat = none ∧ d.adsorption_site = none :=
  ⟨rfl, gas_doc_translated sampleG2 "CO" sampleGas rfl⟩

/-- Tagging the last atom of `l ++ [a]` rewrites only `a`. -/
theorem set_last_tag_concat (t : Int) (a : Atom) :
    ∀ l : List Atom, set_last_tag t (l ++ [a]) = l ++ [{ a with tag := t }]
  | [] => rfl
  | [_] => rfl
  | x :: y :: l => congrArg (List.cons x) (set_last_tag_concat t a (y :: l))

/-- A concrete tiling/site-finding collaborator used to evaluate the theorems
on closed inputs: tiling doubles the atom list, sites are the atom
positions. -/
def sampleSiteCollab : SiteCollab where
  tile_atoms := fun a _ _ => ({ a with atoms := a.atoms ++ a.atoms }, (2, 1))
  find_adsorption_sites := fun a => a.atoms.map (fun x => x.position)

/-- A concrete slab document used as a closed input. -/
def sampleSlabDoc : Doc :=
  make_doc_from_atoms ⟨[⟨"Cu", (0, 0, 0), 0⟩, ⟨"Cu", (1, 0, 0), 0⟩], (3, 3, 3), (true, true, true)⟩

/-- C2: the run output is the per-slab blocks concatenated, and for each slab
document the block holds exactly one document per discovered site, each
carrying that site in `adsorption_site`, the tiling repeat factors in
`slab_repeat`, and a final uranium marker atom tagged `1`. -/
theorem site_fanout_per_site (c : SiteCollab) (min_xy : Int) (slab_docs : List Doc) :
    GenerateAdsorptionSites_run c min_xy slab_docs
      = slab_docs.flatMap (site_docs_for_slab c min_xy)
    ∧ ∀ d : Doc,
      (site_docs_for_slab c min_xy d).length
        = (c.find_adsorption_sites (c.tile_atoms (make_atoms_from_doc d) min_xy min_xy).1).length
      ∧ ∀ doc ∈ site_docs_for_slab c min_xy d,
          ∃ site ∈ c.find_adsorption_sites (c.tile_atoms (make_atoms_from_doc d) min_xy min_xy).1,
            doc = site_doc (c.tile_atoms (make_atoms_from_doc d) min_xy min_xy).1
                    (c.tile_atoms (make_atoms_from_doc d) min_xy min_xy).2 site
            ∧ doc.adsorption_site = some site
            ∧ doc.slab_repeat
                = some (c.tile_atoms (make_atoms_from_doc d) min_xy min_xy).2
            ∧ doc.atoms.atoms.getLast?
                = some { symbol := "U", position := vadd (0, 0, 0) site, tag := 1 } := by
  refine ⟨rfl, fun d => ⟨List.length_map _ _, fun doc hdoc => ?_⟩⟩
  obtain ⟨site, hsite, rfl⟩ := List.mem_map.mp hdoc
  refine ⟨site, hsite, rfl, rfl, rfl, ?_⟩
  simp [site_doc, make_doc_from_atoms, set_last_tag_concat, uranium_marker]

/-- C2 witness: evaluating the per-site fan-out on the concrete collaborator
and slab document. -/
theorem site_fanout_per_site_witness :
    (site_doc (sampleSiteCollab.tile_atoms (make_atoms_from_doc sampleSlabDoc) 5 5).1
        (sampleSiteCollab.tile_atoms (make_atoms_from_doc sampleSlabDoc) 5 5).2 (0, 0, 0))
      ∈ site_docs_for_slab sampleSiteCollab 5 sampleSlabDoc
    ∧ ∃ site ∈ sampleSiteCollab.find_adsorption_sites
        (sampleSiteCollab.tile_atoms (make_atoms_from_doc sampleSlabDoc) 5 5).1,
        (site_doc (sampleSiteCollab.tile_atoms (make_atoms_from_doc sampleSlabDoc) 5 5).1
            (sampleSiteCollab.tile_atoms (make_atoms_from_doc sampleSlabDoc) 5 5).2 (0, 0, 0))
          = site_doc (sampleSiteCollab.tile_atoms (make_atoms_from_doc sampleSlabDoc) 5 5).1
              (sampleSiteCollab.tile_atoms (make_atoms_from_doc sampleSlabDoc) 5 5).2 site
        ∧ (site_doc (sampleSiteCollab.tile_atoms (make_atoms_from_doc sampleSlabDoc) 5 5).1
            (sampleSiteCollab.tile_atoms (make_atoms_from_doc sampleSlabDoc) 5 5).2
            (0, 0, 0)).adsorption_site = some site
        ∧ (site_doc (sampleSiteCollab.tile_atoms (make_atoms_from_doc sampleSlabDoc) 5 5).1
            (sampleSiteCollab.tile_atoms (make_atoms_from_doc sampleSlabDoc) 5 5).2
            (0, 0, 0)).slab_repeat
            = some (sampleSiteCollab.tile_atoms (make_atoms_from_doc sampleSlabDoc) 5 5).2
        ∧ (site_doc (sampleSiteCollab.tile_atoms (make_atoms_from_doc sampleSlabDoc) 5 5).1
            (sampleSiteCollab.tile_atoms (make_atoms_from_doc sampleSlabDoc) 5 5).2
            (0, 0, 0)).atoms.atoms.getLast?
            = some { symbol := "U", position := vadd (0, 0, 0) site, tag := 1 } := by
  have hmem :
      (site_doc (sampleSiteCollab.tile_atoms (make_atoms_from_doc sampleSlabDoc) 5 5).1
          (sampleSiteCollab.tile_atoms (make_atoms_from_doc sampleSlabDoc) 5 5).2 (0, 0, 0))
        ∈ site_docs_for_slab sampleSiteCollab 5 sampleSlabDoc := by decide
  exact ⟨hmem,
    ((site_fanout_per_site sampleSiteCollab 5 [sampleSlabDoc]).2 sampleSlabDoc).2 _ hmem⟩

/-- C9: placing the marker leaves the tiled slab unchanged — in every
per-site document all atoms except the final marker are exactly the tiled
slab's atoms (hence identical across the documents of one slab), and the
cell and periodicity are the tiled slab's. -/
theorem site_docs_frame (c : SiteCollab) (min_xy : Int) (d : Doc) :
    ∀ doc ∈ site_docs_for_slab c min_xy d,
      doc.atoms.atoms.dropLast
        = (c.tile_atoms (make_atoms_from_doc d) min_xy min_xy).1.atoms
      ∧ doc.atoms.cell = (c.tile_atoms (make_atoms_from_doc d) min_xy min_xy).1.cell
      ∧ doc.atoms.pbc = (c.tile_atoms (make_atoms_from_doc d) min_xy min_xy).1.pbc
      ∧ ∀ doc2 ∈ site_docs_for_slab c min_xy d,
          doc.atoms.atoms.dropLast = doc2.atoms.atoms.dropLast := by
  have key : ∀ doc ∈ site_docs_for_slab c min_xy d,
      doc.atoms.atoms.dropLast
        = (c.tile_atoms (make_atoms_from_doc d) min_xy min_xy).1.atoms
      ∧ doc.atoms.cell = (c.tile_atoms (make_atoms_from_doc d) min_xy min_xy).1.cell
      ∧ doc.atoms.pbc = (c.tile_atoms (make_atoms_from_doc d) min_xy min_xy).1.pbc := by
    intro doc hdoc
    obtain ⟨site, _, rfl⟩ := List.mem_map.mp hdoc
    refine ⟨?_, rfl, rfl⟩
    simp [site_doc, make_doc_from_atoms, set_last_tag_concat]
  intro doc hdoc
  obtain ⟨h1, h2, h3⟩ := key doc hdoc
  exact ⟨h1, h2, h3, fun doc2 hdoc2 => h1.trans (key doc2 hdoc2).1.symm⟩

/-- C9 witness: evaluating the frame property on the concrete collaborator
and slab document. -/
theorem site_docs_frame_witness :
    (site_doc (sampleSiteCollab.tile_atoms (make_atoms_from_doc sampleSlabDoc) 5 5).1
        (sampleSiteCollab.tile_atoms (make_atoms_from_doc sampleSlabDoc) 5 5).2 (0, 0, 0))
      ∈ site_docs_for_slab sampleSiteCollab 5 sampleSlabDoc
    ∧ (site_doc (sampleSiteCollab.tile_atoms (make_atoms_from_doc sampleSlabDoc) 5 5).1
        (sampleSiteCollab.tile_atoms (make_atoms_from_doc sampleSlabDoc) 5 5).2
        (0, 0, 0)).atoms.atoms.dropLast
        = (sampleSiteCollab.tile_atoms (make_atoms_from_doc sampleSlabDoc) 5 5).1.atoms := by
  have hmem :
      (site_doc (sampleSiteCollab.tile_atoms (make_atoms_from_doc sampleSlabDoc) 5 5).1
          (sampleSiteCollab.tile_atoms (make_atoms_from_doc sampleSlabDoc) 5 5).2 (0, 0, 0))
        ∈ site_docs_for_slab sampleSiteCollab 5 sampleSlabDoc := by decide
  exact ⟨hmem, (site_docs_frame sampleSiteCollab 5 sampleSlabDoc _ hmem).1⟩

/-- C6: each of the two enumeration tasks declares exactly one upstream task,
computed from its parameter bag alone — `GenerateSlabs` a bulk finder for its
mpid, `GenerateAdsorptionSites` a `GenerateSlabs` instance with the same
mpid, miller indices and settings mappings (its `min_xy` is not passed). -/
theorem requires_single_upstream (p : GenerateSlabsParams) (q : GenerateAdsorptionSitesParams) :
    GenerateSlabs_requires p = [TaskRef.findBulk p.mpid]
    ∧ (GenerateSlabs_requires p).length = 1
    ∧ GenerateAdsorptionSites_requires q
        = [TaskRef.generateSlabs
            ⟨q.mpid, q.miller_indices, q.slab_generator_settings, q.get_slab_settings⟩]
    ∧ (GenerateAdsorptionSites_requires q).length = 1 :=
  ⟨rfl, rfl, rfl, rfl⟩

/-- C7: a task body reads nothing from the store but its declared
dependency's persisted output — two stores agreeing on that one record give
identical runs of `GenerateSlabs` and of `GenerateAdsorptionSites`. -/
theorem run_reads_only_dependency_output (c : SlabCollab)
    (msb : Atoms → (Int × Int × Int) → Settings → Settings → List Struct)
    (c2 : SiteCollab) (p : GenerateSlabsParams) (q : GenerateAdsorptionSitesParams)
    (st st' : Store)
    (h1 : st.read (TaskRef.findBulk p.mpid).identity
          = st'.read (TaskRef.findBulk p.mpid).identity)
    (h2 : st.read (TaskRef.generateSlabs
            ⟨q.mpid, q.miller_indices, q.slab_generator_settings, q.get_slab_settings⟩).identity
          = st'.read (TaskRef.generateSlabs
            ⟨q.mpid, q.miller_indices, q.slab_generator_settings, q.get_slab_settings⟩).identity) :
    GenerateSlabs_run c msb p st = GenerateSlabs_run c msb p st'
    ∧ GenerateAdsorptionSites_run_from_store c2 q st
        = GenerateAdsorptionSites_run_from_store c2 q st' := by
  constructor
  · simp only [GenerateSlabs_run, h1]
  · simp only [GenerateAdsorptionSites_run_from_store, h2]

/-- Concrete parameter bags for closed evaluation. -/
def sampleSlabsParams : GenerateSlabsParams :=
  ⟨"mp-30", (1, 1, 1), [("min_slab_size", .int 7)], [("tol", .int 1)]⟩

/-- Concrete adsorption-site parameters matching `sampleSlabsParams`. -/
def sampleSitesParams : GenerateAdsorptionSitesParams :=
  ⟨"mp-30", (1, 1, 1), [("min_slab_size", .int 7)], [("tol", .int 1)], 4⟩

/-- A store record identity unrelated to either dependency. -/
def unrelatedId : TaskIdentity := task_identity "GenerateGas" [("gas_name", .str "CO")]

/-- C7 witness: an empty store and a store holding only an unrelated record
agree on both dependency reads, and the two runs coincide on them. -/
theorem run_reads_only_dependency_output_witness :
    (Store.mk [] []).read (TaskRef.findBulk sampleSlabsParams.mpid).identity
      = (Store.mk [(unrelatedId, .one sampleSlabDoc)] []).read
          (TaskRef.findBulk sampleSlabsParams.mpid).identity
    ∧ (Store.mk [] []).read (TaskRef.generateSlabs
          ⟨sampleSitesParams.mpid, sampleSitesParams.miller_indices,
           sampleSitesParams.slab_generator_settings, sampleSitesParams.get_slab_settings⟩).identity
      = (Store.mk [(unrelatedId, .one sampleSlabDoc)] []).read
          (TaskRef.generateSlabs
            ⟨sampleSitesParams.mpid, sampleSitesParams.miller_indices,
             sampleSitesParams.slab_generator_settings, sampleSitesParams.get_slab_settings⟩).identity
    ∧ GenerateAdsorptionSites_run_from_store sampleSiteCollab sampleSitesParams (Store.mk [] [])
      = GenerateAdsorptionSites_run_from_store sampleSiteCollab sampleSitesParams
          (Store.mk [(unrelatedId, .one sampleSlabDoc)] []) := by
  have h1 : (Store.mk [] []).read (TaskRef.findBulk sampleSlabsParams.mpid).identity
      = (Store.mk [(unrelatedId, .one sampleSlabDoc)] []).read
          (TaskRef.findBulk sampleSlabsParams.mpid).identity := by decide
  have h2 : (Store.mk [] []).read (TaskRef.generateSlabs
        ⟨sampleSitesParams.mpid, sampleSitesParams.miller_indices,
         sampleSitesParams.slab_generator_settings, sampleSitesParams.get_slab_settings⟩).identity
      = (Store.mk [(unrelatedId, .one sampleSlabDoc)] []).read
          (TaskRef.generateSlabs
            ⟨sampleSitesParams.mpid, sampleSitesParams.miller_indices,
             sampleSitesParams.slab_generator_settings, sampleSitesParams.get_slab_settings⟩).identity := by
    decide
  exact ⟨h1, h2,
    (run_reads_only_dependency_output sampleSlabCollab (fun _ _ _ _ => []) sampleSiteCollab
      sampleSlabsParams sampleSitesParams (Store.mk [] [])
      (Store.mk [(unrelatedId, .one sampleSlabDoc)] []) h1 h2).2⟩

/-- C4: the identity and the output location are pure functions of the task
type and the canonicalized parameter bag — equal parameters give equal
identity and location, and already parameter bags with equal
canonicalizations do. -/
theorem task_identity_deterministic (ty : String) (ps qs : Params) :
    (ps = qs →
      task_identity ty ps = task_identity ty qs
      ∧ location_for (task_identity ty ps) = location_for (task_identity ty qs))
    ∧ (canonicalize ps = canonicalize qs →
      task_identity ty ps = task_identity ty qs
      ∧ location_for (task_identity ty ps) = location_for (task_identity ty qs))
    ∧ task_identity ty ps = ⟨ty, canonicalize ps⟩ := by
  refine ⟨fun h => ?_, fun h => ?_, rfl⟩
  · subst h; exact ⟨rfl, rfl⟩
  · have : task_identity ty ps = task_identity ty qs := by
      simp [task_identity, h]
    exact ⟨this, congrArg location_for this⟩

/-- C4 witness: two parameter bags listing the same pairs in different order
canonicalize identically, hence share identity and location. -/
theorem task_identity_deterministic_witness :
    canonicalize [("b", ParamValue.int 1), ("a", ParamValue.int 2)]
      = canonicalize [("a", ParamValue.int 2), ("b", ParamValue.int 1)]
    ∧ task_identity "GenerateSlabs" [("b", ParamValue.int 1), ("a", ParamValue.int 2)]
      = task_identity "GenerateSlabs" [("a", ParamValue.int 2), ("b", ParamValue.int 1)]
    ∧ location_for (task_identity "GenerateSlabs" [("b", ParamValue.int 1), ("a", ParamValue.int 2)])
      = location_for (task_identity "GenerateSlabs" [("a", ParamValue.int 2), ("b", ParamValue.int 1)]) := by
  have h : canonicalize [("b", ParamValue.int 1), ("a", ParamValue.int 2)]
      = canonicalize [("a", ParamValue.int 2), ("b", ParamValue.int 1)] := by decide
  exact ⟨h, ((task_identity_deterministic "GenerateSlabs" _ _).2.1 h).1,
    ((task_identity_deterministic "GenerateSlabs" _ _).2.1 h).2⟩

/-- C5: an interrupted write touches only the staging area — record
existence and reads are unchanged — while a completed write commits the exact
payload; and a failed remote bulk lookup propagates out of
`GenerateBulk.run` with the store untouched. -/
theorem atomic_write_discipline (st : Store) (i j : TaskIdentity) (p : Payload)
    (get_atoms : Struct → Atoms) (fetch : String → Except String Struct)
    (mpid : String) (e : String) (hfail : fetch mpid = .error e) :
    (st.write_interrupted i p).recordExists j = st.recordExists j
    ∧ (st.write_interrupted i p).read j = st.read j
    ∧ (st.write i p).recordExists i = true
    ∧ (st.write i p).read i = some p
    ∧ GenerateBulk_run get_atoms fetch mpid st = .error e := by
  refine ⟨rfl, rfl, ?_, ?_, ?_⟩
  · simp [Store.write, Store.recordExists]
  · simp [Store.write, Store.read]
  · simp [GenerateBulk_run, hfail]

/-- C5 witness: evaluating the write discipline on an empty store and an
always-failing remote lookup. -/
theorem atomic_write_discipline_witness :
    ((fun _ : String => (Except.error "RemoteLookupError" : Except String Struct)) "mp-30"
        = .error "RemoteLookupError")
    ∧ ((Store.mk [] []).write_interrupted unrelatedId (.one sampleSlabDoc)).recordExists unrelatedId
        = (Store.mk [] []).recordExists unrelatedId
    ∧ ((Store.mk [] []).write unrelatedId (.one sampleSlabDoc)).recordExists unrelatedId = true
    ∧ ((Store.mk [] []).write unrelatedId (.one sampleSlabDoc)).read unrelatedId
        = some (.one sampleSlabDoc)
    ∧ GenerateBulk_run sampleSlabCollab.get_atoms
        (fun _ => .error "RemoteLookupError") "mp-30" (Store.mk [] [])
        = .error "RemoteLookupError" := by
  have h := atomic_write_discipline (Store.mk [] []) unrelatedId unrelatedId
    (.one sampleSlabDoc) sampleSlabCollab.get_atoms
    (fun _ => .error "RemoteLookupError") "mp-30" "RemoteLookupError" rfl
  exact ⟨rfl, h.1, h.2.2.1, h.2.2.2.1, h.2.2.2.2⟩

/-- A committed record survives any later write. -/
theorem recordExists_write_of_recordExists (st : Store) (i j : TaskIdentity) (p : Payload)
    (h : st.recordExists j = true) : (st.write i p).recordExists j = true := by
  simp only [Store.write, Store.recordExists, List.any_cons, Bool.or_eq_true]
  exact Or.inr h

/-- A write commits only its own identity. -/
theorem recordExists_write_of_ne (st : Store) (i j : TaskIdentity) (p : Payload)
    (h : i ≠ j) : (st.write i p).recordExists j = st.recordExists j := by
  simp [Store.write, Store.recordExists, h]

/-- The resolver walk never removes a committed record. -/
theorem run_schedule_preserves (j : TaskIdentity) :
    ∀ (sched : List Node) (st : Store), st.recordExists j = true →
      (run_schedule st sched).1.recordExists j = true
  | [], _, h => h
  | node :: rest, st, h => by
      simp only [run_schedule]
      by_cases hex : st.recordExists node.id
      · simpa [hex] using run_schedule_preserves j rest st h
      · simpa [hex] using run_schedule_preserves j rest
          (st.write node.id (node.compute st))
          (recordExists_write_of_recordExists st node.id j (node.compute st) h)

/-- After the resolver walk every scheduled node has a committed record. -/
theorem run_schedule_covers :
    ∀ (sched : List Node) (st : Store), ∀ node ∈ sched,
      (run_schedule st sched).1.recordExists node.id = true
  | node :: rest, st, n, hn => by
      simp only [run_schedule]
      rcases List.mem_cons.mp hn with h | h
      · subst h
        by_cases hex : st.recordExists n.id
        · simpa [hex] using run_schedule_preserves n.id rest st hex
        · have hw : (st.write n.id (n.compute st)).recordExists n.id = true := by
            simp [Store.write, Store.recordExists]
          simpa [hex] using run_schedule_preserves n.id rest _ hw
      · by_cases hex : st.recordExists node.id
        · simpa [hex] using run_schedule_covers rest st n h
        · simpa [hex] using run_schedule_covers rest (st.write node.id (node.compute st)) n h

/-- A walk over a fully cached schedule performs no computation and leaves
the store unchanged. -/
theorem run_schedule_noop :
    ∀ (sched : List Node) (st : Store),
      (∀ node ∈ sched, st.recordExists node.id = true) →
      run_schedule st sched = (st, 0)
  | [], _, _ => rfl
  | node :: rest, st, h => by
      have hex := h node (List.mem_cons_self node rest)
      simp only [run_schedule, hex, if_true]
      exact run_schedule_noop rest st (fun n hn => h n (List.mem_cons_of_mem node hn))

/-- On an initially uncached schedule with distinct identities every node
executes. -/
theorem run_schedule_count :
    ∀ (sched : List Node) (st : Store),
      (∀ node ∈ sched, st.recordExists node.id = false) →
      (sched.map Node.id).Nodup →
      (run_schedule st sched).2 = sched.length
  | [], _, _, _ => rfl
  | node :: rest, st, h, hnd => by
      have hex := h node (List.mem_cons_self node rest)
      simp only [run_schedule, hex, Bool.false_eq_true, if_false]
      have hrest : ∀ n ∈ rest, (st.write node.id (node.compute st)).recordExists n.id = false := by
        intro n hn
        have hne : node.id ≠ n.id := by
          intro hid
          exact (List.nodup_cons.mp hnd).1 (hid ▸ List.mem_map_of_mem Node.id hn)
        rw [recordExists_write_of_ne st node.id n.id (node.compute st) hne]
        exact h n (List.mem_cons_of_mem node hn)
      have := run_schedule_count rest (st.write node.id (node.compute st)) hrest
        (List.nodup_cons.mp hnd).2
      simp [this]

/-- C3: a second resolver pass over the same schedule invokes no computation
and leaves the store as the first pass left it; a node whose Output Record
already exists is skipped outright; and a first pass over an uncached
schedule of distinct identities runs each computation exactly once. -/
theorem resolve_and_run_idempotent (sched : List Node) (st : Store) :
    run_schedule (run_schedule st sched).1 sched = ((run_schedule st sched).1, 0)
    ∧ (∀ (node : Node) (rest : List Node), st.recordExists node.id = true →
        run_schedule st (node :: rest) = run_schedule st rest)
    ∧ ((∀ node ∈ sched, st.recordExists node.id = false) →
        (sched.map Node.id).Nodup →
        (run_schedule st sched).2 = sched.length) := by
  refine ⟨run_schedule_noop sched (run_schedule st sched).1
      (fun n hn => run_schedule_covers sched st n hn),
    fun node rest h => ?_, run_schedule_count sched st⟩
  simp [run_schedule, h]

/-- A one-node schedule used for closed evaluation. -/
def sampleNode : Node := ⟨unrelatedId, fun _ => .one sampleSlabDoc⟩

/-- C3 witness: on a one-node schedule against an empty store the first pass
computes once, the second pass computes nothing, and with the record already
committed the node is skipped. -/
theorem resolve_and_run_idempotent_witness :
    run_schedule (run_schedule (Store.mk [] []) [sampleNode]).1 [sampleNode]
      = ((run_schedule (Store.mk [] []) [sampleNode]).1, 0)
    ∧ (run_schedule (Store.mk [] []) [sampleNode]).2 = 1
    ∧ (Store.mk [(unrelatedId, .one sampleSlabDoc)] []).recordExists sampleNode.id = true
    ∧ run_schedule (Store.mk [(unrelatedId, .one sampleSlabDoc)] []) [sampleNode]
      = run_schedule (Store.mk [(unrelatedId, .one sampleSlabDoc)] []) [] := by
  have hfresh : ∀ node ∈ [sampleNode], (Store.mk [] []).recordExists node.id = false := by
    intro node hn
    rcases List.mem_singleton.mp hn with rfl
    rfl
  have hex : (Store.mk [(unrelatedId, .one sampleSlabDoc)] []).recordExists sampleNode.id = true := by
    decide
  refine ⟨(resolve_and_run_idempotent [sampleNode] (Store.mk [] [])).1, ?_, hex,
    (resolve_and_run_idempotent [sampleNode]
      (Store.mk [(unrelatedId, .one sampleSlabDoc)] [])).2.1 sampleNode [] hex⟩
  exact (resolve_and_run_idempotent [sampleNode] (Store.mk [] [])).2.2 hfresh (by simp)

end Gaspy
